import Mathlib

/-!
Shallow embedding of the wikirag pipeline (src/main.rs).

The program is a linear four-stage pipeline: keyword derivation via an LLM,
a Wikipedia search, a page-extract fetch loop, and answer generation.
Network transport and JSON deserialization are performed by libraries
(reqwest / serde / async-openai / ollama-rs); we model the deserialized
response values as inputs and the stage bodies as pure functions over them.
Stateful control flow in `main` (the `deal_with_error` exits, the download
loop) is embedded as an explicit function `run_main` over stage oracles,
instrumented so that the inputs handed to each stage and the process exit
code are observable fields of the result.
-/

/-- `enum LlmProvider { OpenAI, Ollama }` from src/main.rs. -/
inductive LlmProvider where
  | OpenAI : LlmProvider
  | Ollama : LlmProvider
deriving Repr, DecidableEq

/-- `struct Config` from src/main.rs: model name, verbose flag, number of
wiki pages to fetch (a `u32`, modelled as `Nat`), and the provider. -/
structure Config where
  model : String
  verbose : Bool
  wiki_pages : Nat
  llm_server : LlmProvider
deriving Repr, DecidableEq

/-- The defaults set at the top of `get_config_from_env`. -/
def default_config : Config :=
  { model := "gpt-3.5-turbo", verbose := false, wiki_pages := 1,
    llm_server := LlmProvider.OpenAI }

/-- One step of `u32::from_str`: consume ASCII digits, accumulating the
value in base 10; any non-digit character fails the parse. -/
def parse_digits_aux : List Char → Nat → Option Nat
  | [], acc => some acc
  | c :: cs, acc =>
    if c.isDigit then parse_digits_aux cs (acc * 10 + (c.toNat - 48))
    else none

/-- `u32::MAX + 1`. -/
def U32_LIMIT : Nat := 4294967296

/-- Rust's `u32::from_str` allows one optional leading `+` sign. -/
def strip_plus : List Char → List Char
  | '+' :: rest => rest
  | cs => cs

/-- Model of `val.parse::<u32>()`: an optional `+`, then one or more ASCII
digits whose value fits in a `u32`; everything else is a parse error
(`none`). -/
def parse_u32 (s : String) : Option Nat :=
  let cs := strip_plus s.data
  if cs = [] then none
  else
    match parse_digits_aux cs 0 with
    | some n => if n < U32_LIMIT then some n else none
    | none => none

/-- The `AI_MODEL` branch of `get_config_from_env` (src/main.rs lines
34-56): the allow-list `gpt-4-turbo | gpt-3.5-turbo | gpt-4o` selects
OpenAI, `llama3` selects Ollama, and anything else keeps the defaults and
prints a warning (returned here as the `Bool`). `none` models an unset
variable. -/
def apply_ai_model (c : Config) : Option String → Config × Bool
  | none => (c, false)
  | some val =>
    if val = "gpt-4-turbo" ∨ val = "gpt-3.5-turbo" ∨ val = "gpt-4o" then
      ({ c with model := val, llm_server := LlmProvider.OpenAI }, false)
    else if val = "llama3" then
      ({ c with model := val, llm_server := LlmProvider.Ollama }, false)
    else
      (c, true)

/-- The `VERBOSE` branch of `get_config_from_env` (lines 57-61): any
non-empty value enables verbose. -/
def apply_verbose (c : Config) : Option String → Config
  | none => c
  | some val => if val ≠ "" then { c with verbose := true } else c

/-- The `WIKI_PAGES` branch of `get_config_from_env` (lines 62-72): a
non-empty value that parses as `u32` is installed, then `0` is coerced to
`1`; a parse failure or empty value keeps the current (default) count. -/
def apply_wiki_pages (c : Config) : Option String → Config
  | none => c
  | some val =>
    if val ≠ "" then
      match parse_u32 val with
      | some n => { c with wiki_pages := if n = 0 then 1 else n }
      | none => c
    else c

/-- `get_config_from_env` (src/main.rs lines 26-74), over the three
environment variables `AI_MODEL`, `VERBOSE`, `WIKI_PAGES` (each `none`
when unset). The second component records whether the unknown-model
warning was printed. -/
def get_config_from_env (ai_model verbose_var wiki_pages_var : Option String) :
    Config × Bool :=
  let cw := apply_ai_model default_config ai_model
  let c2 := apply_verbose cw.1 verbose_var
  let c3 := apply_wiki_pages c2 wiki_pages_var
  (c3, cw.2)

/-- `struct SearchResult { title, pageid: u32 }` deserialized from the
search API response. -/
structure SearchResult where
  title : String
  pageid : Nat
deriving Repr, DecidableEq

/-- `struct QueryResult { search: Vec<SearchResult> }`. -/
structure QueryResult where
  search : List SearchResult
deriving Repr, DecidableEq

/-- `struct WikipediaResponse { query: QueryResult }`. -/
structure WikipediaResponse where
  query : QueryResult
deriving Repr, DecidableEq

/-- `struct WikiPage { page_id: String, title: String }`. -/
structure WikiPage where
  page_id : String
  title : String
deriving Repr, DecidableEq

/-- The pure core of `search_wikipedia` (src/main.rs lines 293-303): map
each deserialized search result to a `WikiPage`, stringifying the numeric
`pageid` (`result.pageid.to_string()`) and keeping the title and order. -/
def search_wikipedia_pages (response : WikipediaResponse) : List WikiPage :=
  response.query.search.map (fun result =>
    { page_id := toString result.pageid, title := result.title })

/-- `struct Page { extract: String }` of the extract API response. -/
structure Page where
  extract : String
deriving Repr, DecidableEq

/-- `struct QueryPages { pages: HashMap<String, Page> }`; the map is
modelled as an association list with lookup on the first matching key. -/
structure QueryPages where
  pages : List (String × Page)
deriving Repr, DecidableEq

/-- `struct WikipediaExtractResponse { query: QueryPages }`. -/
structure WikipediaExtractResponse where
  query : QueryPages
deriving Repr, DecidableEq

/-- The pure core of `download_wikipedia_page` (src/main.rs lines
345-349): look the requested id up in the deserialized page map; return
its extract, or the error `"Page not found"` when the id is absent. -/
def download_wikipedia_page_core (response : WikipediaExtractResponse)
    (page_id : String) : Except String String :=
  match response.query.pages.lookup page_id with
  | some page => Except.ok page.extract
  | none => Except.error "Page not found"

/-- An outbound GET request: base URL plus query parameters. -/
structure HttpRequest where
  base_url : String
  params : List (String × String)
deriving Repr, DecidableEq

/-- The request built by `search_wikipedia` (src/main.rs lines 274-284). -/
def search_wikipedia_request (keyword : String) : HttpRequest :=
  { base_url := "https://en.wikipedia.org/w/api.php",
    params := [("action", "query"), ("list", "search"),
               ("srsearch", keyword), ("format", "json")] }

/-- The request built by `download_wikipedia_page` (src/main.rs lines
325-334). -/
def download_wikipedia_request (page_id : String) : HttpRequest :=
  { base_url := "https://en.wikipedia.org/w/api.php",
    params := [("action", "query"), ("pageids", page_id),
               ("prop", "extracts"), ("explaintext", "true"),
               ("format", "json")] }

/-- `search_wikipedia` (src/main.rs lines 270-304) with the HTTP exchange
abstracted: `parse` stands for `serde_json::from_str` applied to the
response body. Returns the request it would issue, the diagnostic lines
printed (the raw body iff `config.verbose`), and the result. -/
def search_wikipedia_full (parse : String → Except String WikipediaResponse)
    (config : Config) (keyword : String) (body : String) :
    HttpRequest × List String × Except String (List WikiPage) :=
  let request := search_wikipedia_request keyword
  let diags := if config.verbose then ["Raw response: " ++ body] else []
  match parse body with
  | Except.error e => (request, diags, Except.error e)
  | Except.ok resp => (request, diags, Except.ok (search_wikipedia_pages resp))

/-- `download_wikipedia_page` (src/main.rs lines 321-350) with the HTTP
exchange abstracted in the same way as `search_wikipedia_full`. -/
def download_wikipedia_full
    (parse : String → Except String WikipediaExtractResponse)
    (config : Config) (page_id : String) (body : String) :
    HttpRequest × List String × Except String String :=
  let request := download_wikipedia_request page_id
  let diags := if config.verbose then ["Raw response: " ++ body] else []
  match parse body with
  | Except.error e => (request, diags, Except.error e)
  | Except.ok resp => (request, diags, download_wikipedia_page_core resp page_id)

/-- A chat message of the OpenAI response: `choice.message.content` is an
`Option<String>`. -/
structure ChatMessageModel where
  content : Option String
deriving Repr, DecidableEq

/-- One entry of `response.choices`. -/
structure ChatChoice where
  message : ChatMessageModel
deriving Repr, DecidableEq

/-- The OpenAI chat response as consumed by the program: its list of
choices. -/
structure ChatResponse where
  choices : List ChatChoice
deriving Repr, DecidableEq

/-- The response-handling tail of `get_keywords_from_chatgpt`
(src/main.rs lines 136-144): first choice's content when present,
otherwise the sentinel `"Did not receive response!"`; with no choices at
all, `"No keywords found"`. Every branch is `Ok(...)` in the source, so
the result is always `Except.ok`. -/
def get_keywords_from_chatgpt_core (response : ChatResponse) :
    Except String String :=
  match response.choices.head? with
  | some choice =>
    match choice.message.content with
    | some msg => Except.ok msg
    | none => Except.ok "Did not receive response!"
  | none => Except.ok "No keywords found"

/-- The `message` of an ollama-rs chat response. -/
structure OllamaMessage where
  content : String
deriving Repr, DecidableEq

/-- The ollama-rs chat response as consumed by the program: an optional
message. -/
structure OllamaResponse where
  message : Option OllamaMessage
deriving Repr, DecidableEq

/-- The response-handling tail of `get_keywords_from_ollama` (src/main.rs
lines 209-213). -/
def get_keywords_from_ollama_core (response : OllamaResponse) :
    Except String String :=
  match response.message with
  | some msg => Except.ok msg.content
  | none => Except.ok "Did not receive response!"

/-- The page ids the download loop of `main` (src/main.rs lines 396-409)
attempts to fetch, assuming every fetch succeeds: iterate `i` from `0`
below `wiki_pages`, breaking as soon as `i >= pages.len()`, and otherwise
reading `pages[i].page_id`. `r` is the number of loop iterations still
allowed. -/
def fetch_attempts_from (pages : List WikiPage) (i : Nat) : Nat → List String
  | 0 => []
  | r + 1 =>
    if h : i < pages.length then
      (pages.get ⟨i, h⟩).page_id :: fetch_attempts_from pages (i + 1) r
    else []

/-- The full fetch plan of the download loop: indices `0..wiki_pages`. -/
def fetch_attempts (wiki_pages : Nat) (pages : List WikiPage) : List String :=
  fetch_attempts_from pages 0 wiki_pages

/-- The list indices at which the download loop of `main` evaluates
`pages[i]` (both `pages[i].page_id` at line 401 and `pages[i].title` at
line 405 occur only after the `i >= pages.len()` break at lines
398-400). -/
def fetch_read_indices_from (pages : List WikiPage) (i : Nat) : Nat → List Nat
  | 0 => []
  | r + 1 =>
    if i < pages.length then i :: fetch_read_indices_from pages (i + 1) r
    else []

/-- All indices read from the search-result list by the download loop. -/
def fetch_read_indices (wiki_pages : Nat) (pages : List WikiPage) : List Nat :=
  fetch_read_indices_from pages 0 wiki_pages

/-- The body of the download loop across one run: download each planned
page id in order with the given oracle, stopping at the first failure
(which in `main` exits the process with code 3). Returns the ids on which
a download was actually attempted and either the collected extracts or
the first error. -/
def fetch_pages (download : String → Except String String) :
    List String → List String × Except String (List String)
  | [] => ([], Except.ok [])
  | pid :: rest =>
    match download pid with
    | Except.error e => ([pid], Except.error e)
    | Except.ok page =>
      match fetch_pages download rest with
      | (ids, Except.error e) => (pid :: ids, Except.error e)
      | (ids, Except.ok pages) => (pid :: ids, Except.ok (page :: pages))

/-- Model of Rust's `str::trim()` as applied in `main`: drop whitespace
characters from both ends of the string. (Rust trims Unicode
`White_Space`; `Char.isWhitespace` covers the ASCII subset, which is
what the trimmed stdin line exercises here.) -/
def rust_trim (s : String) : String :=
  ⟨((s.data.dropWhile Char.isWhitespace).reverse.dropWhile
      Char.isWhitespace).reverse⟩

/-- Observable outcome of one run of `main`: the process exit code, the
`"Error: ..."` line printed by `deal_with_error` (if any), the answer
printed on success, and a trace of what was handed to each stage:
the question given to the keyword stage, the keyword given to the search
stage, the page ids given to `download_wikipedia_page`, and the question
given to the answer stage. `none` marks a stage never invoked. -/
structure MainResult where
  exit_code : Nat
  error_output : Option String
  answer_output : Option String
  keyword_question : String
  search_keyword : Option String
  download_inputs : List String
  answerer_question : Option String
  answer_invoked : Bool
deriving Repr, DecidableEq

/-- `main` (src/main.rs lines 362-423) over stage oracles. The keyword
stage receives `question.trim()` (lines 378-379) while the answer stage
receives the raw `question` (lines 414, 417). `deal_with_error` (lines
352-360) prints `Error: {e}` and exits with the stage code: 1 keyword,
2 search, 3 download, 4 answer; falling off the end is exit code 0. -/
def run_main (cfg : Config)
    (keyword_stage : String → Except String String)
    (search_stage : String → Except String (List WikiPage))
    (download_stage : String → Except String String)
    (answer_stage : List String → String → Except String String)
    (question : String) : MainResult :=
  let kq := rust_trim question
  match keyword_stage kq with
  | Except.error e =>
    { exit_code := 1, error_output := some ("Error: " ++ e),
      answer_output := none, keyword_question := kq, search_keyword := none,
      download_inputs := [], answerer_question := none, answer_invoked := false }
  | Except.ok keywords =>
    match search_stage keywords with
    | Except.error e =>
      { exit_code := 2, error_output := some ("Error: " ++ e),
        answer_output := none, keyword_question := kq,
        search_keyword := some keywords, download_inputs := [],
        answerer_question := none, answer_invoked := false }
    | Except.ok pages =>
      match fetch_pages download_stage (fetch_attempts cfg.wiki_pages pages) with
      | (attempted, Except.error e) =>
        { exit_code := 3, error_output := some ("Error: " ++ e),
          answer_output := none, keyword_question := kq,
          search_keyword := some keywords, download_inputs := attempted,
          answerer_question := none, answer_invoked := false }
      | (attempted, Except.ok page_strings) =>
        match answer_stage page_strings question with
        | Except.error e =>
          { exit_code := 4, error_output := some ("Error: " ++ e),
            answer_output := none, keyword_question := kq,
            search_keyword := some keywords, download_inputs := attempted,
            answerer_question := some question, answer_invoked := true }
        | Except.ok answer =>
          { exit_code := 0, error_output := none, answer_output := some answer,
            keyword_question := kq, search_keyword := some keywords,
            download_inputs := attempted, answerer_question := some question,
            answer_invoked := true }

/-- Scratch config used to instantiate counterexamples: the defaults of
`get_config_from_env`. -/
def cfg_demo : Config := default_config

/-- An extract response whose page map lacks the id "1". -/
def resp_missing : WikipediaExtractResponse :=
  { query := { pages := [("2", { extract := "other page" })] } }

theorem fetch_attempts_from_eq (pages : List WikiPage) (r i : Nat) :
    fetch_attempts_from pages i r
      = ((pages.drop i).take r).map (fun p => p.page_id) := by
  induction r generalizing i with
  | zero => simp [fetch_attempts_from]
  | succ r ih =>
    by_cases h : i < pages.length
    · rw [fetch_attempts_from, dif_pos h, ih (i + 1),
        List.drop_eq_getElem_cons h, List.take_succ_cons, List.map_cons]
      simp [List.get_eq_getElem]
    · rw [fetch_attempts_from, dif_neg h]
      rw [List.drop_eq_nil_of_le (by omega)]
      simp

theorem fetch_attempts_eq_take (k : Nat) (pages : List WikiPage) :
    fetch_attempts k pages = (pages.take k).map (fun p => p.page_id) := by
  rw [fetch_attempts, fetch_attempts_from_eq]
  simp

theorem fetch_pages_const_ok (ext : String) (l : List String) :
    fetch_pages (fun _ => Except.ok ext) l
      = (l, Except.ok (l.map (fun _ => ext))) := by
  induction l with
  | nil => rfl
  | cons pid rest ih => simp [fetch_pages, ih]

theorem fetch_pages_head_error (download : String → Except String String)
    (pid : String) (rest : List String) (e : String)
    (h : download pid = Except.error e) :
    fetch_pages download (pid :: rest) = ([pid], Except.error e) := by
  simp [fetch_pages, h]

theorem fetch_attempts_cons (k : Nat) (p : WikiPage) (rest : List WikiPage) :
    fetch_attempts (k + 1) (p :: rest) = p.page_id :: fetch_attempts k rest := by
  rw [fetch_attempts_eq_take, fetch_attempts_eq_take]
  simp

/-- Claim C1: for every page-count configuration and every search result
list, the download loop of `main` attempts exactly `min(wiki_pages,
pages.length)` fetches, issued in the order of the search-result list
(the attempted page ids are those of the first `wiki_pages` results, in
order). Stated on a run whose stages all succeed, so every planned fetch
is actually issued. -/
theorem C1_fetch_min_in_order (cfg : Config) (kw q ext ans : String)
    (pages : List WikiPage) :
    (run_main cfg (fun _ => Except.ok kw) (fun _ => Except.ok pages)
        (fun _ => Except.ok ext) (fun _ _ => Except.ok ans) q).download_inputs
      = (pages.take cfg.wiki_pages).map (fun p => p.page_id) ∧
    ((run_main cfg (fun _ => Except.ok kw) (fun _ => Except.ok pages)
        (fun _ => Except.ok ext) (fun _ _ => Except.ok ans) q).download_inputs).length
      = min cfg.wiki_pages pages.length := by
  have hrun :
      (run_main cfg (fun _ => Except.ok kw) (fun _ => Except.ok pages)
        (fun _ => Except.ok ext) (fun _ _ => Except.ok ans) q).download_inputs
      = fetch_attempts cfg.wiki_pages pages := by
    simp [run_main, fetch_pages_const_ok]
  rw [hrun, fetch_attempts_eq_take]
  constructor
  · rfl
  · simp [List.length_take]

/-- Claim C2 (amended): when the search stage returns an empty result
list, the download loop reads no index of the list at all (the
`i >= pages.len()` break fires before any indexing), attempts zero
fetches, and the run proceeds to the answer stage. -/
theorem C2_empty_list_no_access (cfg : Config) (kw q ext ans : String) :
    fetch_read_indices cfg.wiki_pages ([] : List WikiPage) = [] ∧
    fetch_attempts cfg.wiki_pages ([] : List WikiPage) = [] ∧
    (run_main cfg (fun _ => Except.ok kw) (fun _ => Except.ok [])
        (fun _ => Except.ok ext) (fun _ _ => Except.ok ans) q).download_inputs
      = [] ∧
    (run_main cfg (fun _ => Except.ok kw) (fun _ => Except.ok [])
        (fun _ => Except.ok ext) (fun _ _ => Except.ok ans) q).answer_invoked
      = true := by
  have h1 : fetch_read_indices cfg.wiki_pages ([] : List WikiPage) = [] := by
    cases h : cfg.wiki_pages with
    | zero => rfl
    | succ r => simp [fetch_read_indices, fetch_read_indices_from]
  have h2 : fetch_attempts cfg.wiki_pages ([] : List WikiPage) = [] := by
    rw [fetch_attempts_eq_take]; simp
  refine ⟨h1, h2, ?_, ?_⟩ <;> simp [run_main, h2, fetch_pages]

/-- Claim C2, as stated, is false on the code: with an empty search
result list (and the default page count 1) the download loop performs no
access into the list at all, in particular no out-of-range one, and a run
whose remaining stages succeed finishes normally with exit code 0. -/
theorem C2_counterexample :
    fetch_read_indices 1 ([] : List WikiPage) = [] ∧
    (run_main cfg_demo (fun _ => Except.ok "kw") (fun _ => Except.ok [])
        (fun _ => Except.ok "ext") (fun _ _ => Except.ok "ans")
        "q").exit_code = 0 ∧
    (run_main cfg_demo (fun _ => Except.ok "kw") (fun _ => Except.ok [])
        (fun _ => Except.ok "ext") (fun _ _ => Except.ok "ans")
        "q").download_inputs = [] := by
  refine ⟨rfl, rfl, rfl⟩

/-- Claim C3: for every deserialized search response whose `search` array
has `N` entries, `search_wikipedia` produces exactly `N` `WikiPage`
records in the same order, each with `page_id` the decimal rendering of
the numeric `pageid` and `title` the entry's title. -/
theorem C3_search_roundtrip (response : WikipediaResponse) (j : Nat) :
    (search_wikipedia_pages response).length
      = response.query.search.length ∧
    (search_wikipedia_pages response).get? j
      = (response.query.search.get? j).map (fun r =>
          { page_id := toString r.pageid, title := r.title }) := by
  constructor
  · simp [search_wikipedia_pages]
  · simp [search_wikipedia_pages, List.get?_eq_getElem?]

/-- Claim C4: when the extract-fetch response's page map does not contain
the requested page identifier, `download_wikipedia_page` fails with
`"Page not found"`, and `main` prints the `Error: Page not found`
diagnostic and exits with code 3 without ever invoking the answer stage. -/
theorem C4_page_not_found (cfg : Config) (k : Nat)
    (resp : WikipediaExtractResponse) (kw q : String) (p : WikiPage)
    (rest : List WikiPage)
    (answer_stage : List String → String → Except String String)
    (h : resp.query.pages.lookup p.page_id = none) :
    download_wikipedia_page_core resp p.page_id
      = Except.error "Page not found" ∧
    run_main { cfg with wiki_pages := k + 1 } (fun _ => Except.ok kw)
        (fun _ => Except.ok (p :: rest))
        (fun pid => download_wikipedia_page_core resp pid) answer_stage q
      = { exit_code := 3, error_output := some ("Error: " ++ "Page not found"),
          answer_output := none, keyword_question := rust_trim q,
          search_keyword := some kw, download_inputs := [p.page_id],
          answerer_question := none, answer_invoked := false } := by
  have hcore : download_wikipedia_page_core resp p.page_id
      = Except.error "Page not found" := by
    rw [download_wikipedia_page_core, h]
  have hfa : fetch_attempts (k + 1) (p :: rest)
      = p.page_id :: fetch_attempts k rest := fetch_attempts_cons k p rest
  have hfp : fetch_pages (fun pid => download_wikipedia_page_core resp pid)
      (p.page_id :: fetch_attempts k rest)
      = ([p.page_id], Except.error "Page not found") :=
    fetch_pages_head_error _ _ _ _ hcore
  exact ⟨hcore, by simp [run_main, hfa, hfp]⟩

/-- Witness for C4 at a concrete input: page "1" requested, page map
holding only key "2". -/
theorem C4_witness :
    download_wikipedia_page_core resp_missing
        ({ page_id := "1", title := "Paris" } : WikiPage).page_id
      = Except.error "Page not found" ∧
    run_main { cfg_demo with wiki_pages := 0 + 1 } (fun _ => Except.ok "Paris")
        (fun _ => Except.ok [{ page_id := "1", title := "Paris" }])
        (fun pid => download_wikipedia_page_core resp_missing pid)
        (fun _ _ => Except.ok "ans") "q"
      = { exit_code := 3, error_output := some ("Error: " ++ "Page not found"),
          answer_output := none, keyword_question := rust_trim "q",
          search_keyword := some "Paris",
          download_inputs := [({ page_id := "1", title := "Paris" } : WikiPage).page_id],
          answerer_question := none, answer_invoked := false } :=
  C4_page_not_found cfg_demo 0 resp_missing "Paris" "q"
    { page_id := "1", title := "Paris" } [] (fun _ _ => Except.ok "ans")
    (by decide)

/-- Claim C5: each stage's failure exits with its stage-specific code
(1 keyword derivation, 2 Wikipedia search, 3 page download, 4 answer
generation), and a run in which all four stages succeed exits with
code 0. -/
theorem C5_stage_exit_codes (cfg : Config) (k : Nat) (e kw q ext ans : String)
    (p : WikiPage) (rest pages : List WikiPage)
    (search_stage : String → Except String (List WikiPage))
    (download_stage : String → Except String String)
    (answer_stage : List String → String → Except String String) :
    (run_main cfg (fun _ => Except.error e) search_stage download_stage
        answer_stage q).exit_code = 1 ∧
    (run_main cfg (fun _ => Except.ok kw) (fun _ => Except.error e)
        download_stage answer_stage q).exit_code = 2 ∧
    (run_main { cfg with wiki_pages := k + 1 } (fun _ => Except.ok kw)
        (fun _ => Except.ok (p :: rest)) (fun _ => Except.error e)
        answer_stage q).exit_code = 3 ∧
    (run_main cfg (fun _ => Except.ok kw) (fun _ => Except.ok pages)
        (fun _ => Except.ok ext) (fun _ _ => Except.error e) q).exit_code = 4 ∧
    (run_main cfg (fun _ => Except.ok kw) (fun _ => Except.ok pages)
        (fun _ => Except.ok ext) (fun _ _ => Except.ok ans) q).exit_code = 0 := by
  refine ⟨rfl, rfl, ?_, ?_, ?_⟩
  · have hfa : fetch_attempts (k + 1) (p :: rest)
        = p.page_id :: fetch_attempts k rest := fetch_attempts_cons k p rest
    have hfp : fetch_pages (fun _ => Except.error e)
        (p.page_id :: fetch_attempts k rest) = ([p.page_id], Except.error e) :=
      fetch_pages_head_error _ _ _ _ rfl
    simp [run_main, hfa, hfp]
  · simp [run_main, fetch_pages_const_ok]
  · simp [run_main, fetch_pages_const_ok]

theorem apply_ai_model_wiki_pages (c : Config) (o : Option String) :
    ((apply_ai_model c o).1).wiki_pages = c.wiki_pages := by
  cases o with
  | none => rfl
  | some val =>
    by_cases h1 : val = "gpt-4-turbo" ∨ val = "gpt-3.5-turbo" ∨ val = "gpt-4o"
    · simp [apply_ai_model, h1]
    · by_cases h2 : val = "llama3" <;> simp [apply_ai_model, h1, h2]

theorem apply_verbose_wiki_pages (c : Config) (o : Option String) :
    (apply_verbose c o).wiki_pages = c.wiki_pages := by
  cases o with
  | none => rfl
  | some val => by_cases h : val ≠ "" <;> simp [apply_verbose, h]

theorem apply_wiki_pages_parse_failed (c : Config) (val : String)
    (h : parse_u32 val = none) :
    (apply_wiki_pages c (some val)).wiki_pages = c.wiki_pages := by
  by_cases he : val = ""
  · simp [apply_wiki_pages, he]
  · simp [apply_wiki_pages, he, h]

theorem apply_wiki_pages_parse_zero (c : Config) (val : String)
    (h : parse_u32 val = some 0) :
    (apply_wiki_pages c (some val)).wiki_pages = 1 := by
  have he : val ≠ "" := by
    intro he
    rw [he] at h
    exact Option.noConfusion h
  simp [apply_wiki_pages, he, h]

theorem apply_wiki_pages_pos (c : Config) (h : 1 ≤ c.wiki_pages)
    (o : Option String) :
    1 ≤ (apply_wiki_pages c o).wiki_pages := by
  cases o with
  | none => exact h
  | some val =>
    by_cases he : val = ""
    · simpa [apply_wiki_pages, he] using h
    · cases hp : parse_u32 val with
      | none => simpa [apply_wiki_pages, he, hp] using h
      | some n =>
        by_cases hn : n = 0 <;> simp [apply_wiki_pages, he, hp, hn]
        omega

theorem config_before_wiki_pages (ai verbose_var : Option String) :
    (apply_verbose (apply_ai_model default_config ai).1 verbose_var).wiki_pages
      = 1 := by
  rw [apply_verbose_wiki_pages, apply_ai_model_wiki_pages]
  rfl

/-- Claim C6: any `WIKI_PAGES` value that is non-numeric (fails the `u32`
parse) or parses to `0` yields a configured page count of `1`; and for
every environment, the configured page count is at least `1` (never zero
fetches). -/
theorem C6_page_count_coerced (val : String)
    (h : parse_u32 val = none ∨ parse_u32 val = some 0)
    (ai verbose_var w : Option String) :
    ((get_config_from_env ai verbose_var (some val)).1).wiki_pages = 1 ∧
    1 ≤ ((get_config_from_env ai verbose_var w).1).wiki_pages := by
  constructor
  · show (apply_wiki_pages
        (apply_verbose (apply_ai_model default_config ai).1 verbose_var)
        (some val)).wiki_pages = 1
    rcases h with h | h
    · rw [apply_wiki_pages_parse_failed _ _ h, config_before_wiki_pages]
    · exact apply_wiki_pages_parse_zero _ _ h
  · show 1 ≤ (apply_wiki_pages
        (apply_verbose (apply_ai_model default_config ai).1 verbose_var)
        w).wiki_pages
    exact apply_wiki_pages_pos _ (by rw [config_before_wiki_pages]) w

/-- Witness for C6 at the concrete inputs "abc" (non-numeric) and an
unset remainder of the environment. -/
theorem C6_witness :
    ((get_config_from_env none none (some "abc")).1).wiki_pages = 1 ∧
    1 ≤ ((get_config_from_env none none (some "0")).1).wiki_pages :=
  C6_page_count_coerced "abc" (by decide) none none (some "0")

theorem apply_verbose_model (c : Config) (o : Option String) :
    (apply_verbose c o).model = c.model := by
  cases o with
  | none => rfl
  | some val => by_cases h : val ≠ "" <;> simp [apply_verbose, h]

theorem apply_wiki_pages_model (c : Config) (o : Option String) :
    (apply_wiki_pages c o).model = c.model := by
  cases o with
  | none => rfl
  | some val =>
    by_cases he : val = ""
    · simp [apply_wiki_pages, he]
    · cases hp : parse_u32 val with
      | none => simp [apply_wiki_pages, he, hp]
      | some n => simp [apply_wiki_pages, he, hp]

/-- Claim C7: any `AI_MODEL` value outside the allow-list falls back to
the default model `gpt-3.5-turbo`, with the warning diagnostic emitted,
and configuration parsing still returns normally (it is a total
function; the warning flag is the only other effect). -/
theorem C7_model_fallback (val : String)
    (h : val ∉ ["gpt-4-turbo", "gpt-3.5-turbo", "gpt-4o", "llama3"])
    (verbose_var wiki_var : Option String) :
    ((get_config_from_env (some val) verbose_var wiki_var).1).model
      = "gpt-3.5-turbo" ∧
    (get_config_from_env (some val) verbose_var wiki_var).2 = true := by
  simp only [List.mem_cons, List.mem_singleton, not_or] at h
  obtain ⟨h1, h2, h3, h4⟩ := h
  have hm : apply_ai_model default_config (some val) = (default_config, true) := by
    have hall : ¬(val = "gpt-4-turbo" ∨ val = "gpt-3.5-turbo" ∨ val = "gpt-4o") := by
      tauto
    simp [apply_ai_model, hall, h4]
  constructor
  · show (apply_wiki_pages
        (apply_verbose (apply_ai_model default_config (some val)).1 verbose_var)
        wiki_var).model = "gpt-3.5-turbo"
    rw [apply_wiki_pages_model, apply_verbose_model, hm]
    rfl
  · show (apply_ai_model default_config (some val)).2 = true
    rw [hm]

/-- Witness for C7 at the concrete unrecognized value "bogus". -/
theorem C7_witness :
    ((get_config_from_env (some "bogus") none none).1).model
      = "gpt-3.5-turbo" ∧
    (get_config_from_env (some "bogus") none none).2 = true :=
  C7_model_fallback "bogus" (by decide) none none

/-- Claim C8, as stated, is false on the code at two concrete inputs: a
response whose first choice has no content yields the sentinel
`"Did not receive response!"`, not `"No response"`; and a response whose
content is `" Paris "` is returned with its surrounding whitespace
intact, not trimmed. -/
theorem C8_counterexample :
    get_keywords_from_chatgpt_core
        { choices := [{ message := { content := none } }] }
      = Except.ok "Did not receive response!" ∧
    ("Did not receive response!" : String) ≠ "No response" ∧
    get_keywords_from_chatgpt_core
        { choices := [{ message := { content := some " Paris " } }] }
      = Except.ok " Paris " ∧
    (" Paris " : String) ≠ rust_trim " Paris " := by
  refine ⟨rfl, by decide, rfl, by decide⟩

/-- Claim C8 (amended): when the keyword-extraction call succeeds, the
stage returns the first choice's message content unmodified (no
trimming); when it succeeds with no content it returns the sentinel
`"Did not receive response!"` (or `"No keywords found"` when there are no
choices at all; the Ollama variant uses `"Did not receive response!"` for
a missing message) as a successful `Ok` result, so the pipeline continues
to the search stage with that string as keyword. -/
theorem C8_keyword_sentinel (msg : String) (rest : List ChatChoice)
    (m : OllamaMessage) :
    get_keywords_from_chatgpt_core
        { choices := { message := { content := some msg } } :: rest }
      = Except.ok msg ∧
    get_keywords_from_chatgpt_core
        { choices := { message := { content := none } } :: rest }
      = Except.ok "Did not receive response!" ∧
    get_keywords_from_chatgpt_core { choices := [] }
      = Except.ok "No keywords found" ∧
    get_keywords_from_ollama_core { message := some m } = Except.ok m.content ∧
    get_keywords_from_ollama_core { message := none }
      = Except.ok "Did not receive response!" ∧
    (run_main cfg_demo
        (fun _ => get_keywords_from_chatgpt_core
          { choices := { message := { content := none } } :: rest })
        (fun _ => Except.ok []) (fun _ => Except.ok "")
        (fun _ _ => Except.ok "") "q").search_keyword
      = some "Did not receive response!" := by
  exact ⟨rfl, rfl, rfl, rfl, rfl, rfl⟩

/-- Claim C9, as stated, is false on the code: with the stdin line
`"What is the capital of France?\n"` and an answer stage that succeeds,
the question handed to the answer stage is the raw line, which differs
from the trimmed string the claim requires. -/
theorem C9_counterexample :
    (run_main cfg_demo (fun _ => Except.ok "France") (fun _ => Except.ok [])
        (fun _ => Except.ok "ext") (fun _ q => Except.ok q)
        "What is the capital of France?\n").answerer_question
      = some "What is the capital of France?\n" ∧
    some "What is the capital of France?\n"
      ≠ some (rust_trim "What is the capital of France?\n") := by
  refine ⟨rfl, by decide⟩

/-- Claim C9 (amended): the keyword stage receives the stdin line trimmed
of surrounding whitespace (in particular of the trailing newline), while
the answer stage receives the raw line exactly as read, including its
trailing newline. -/
theorem C9_question_passing (cfg : Config) (kw ext ans q : String)
    (pages : List WikiPage) :
    (run_main cfg (fun _ => Except.ok kw) (fun _ => Except.ok pages)
        (fun _ => Except.ok ext) (fun _ _ => Except.ok ans) q).keyword_question
      = rust_trim q ∧
    (run_main cfg (fun _ => Except.ok kw) (fun _ => Except.ok pages)
        (fun _ => Except.ok ext) (fun _ _ => Except.ok ans) q).answerer_question
      = some q := by
  constructor <;> simp [run_main, fetch_pages_const_ok]

/-- Claim C10: for every keyword, page identifier and response body, the
request issued and the value returned by the search stage and by the
page-fetch stage are identical whether the verbose flag is set or not;
verbosity influences only the diagnostic output (the middle component),
a two-run noninterference property. -/
theorem C10_verbose_noninterference
    (parseS : String → Except String WikipediaResponse)
    (parseD : String → Except String WikipediaExtractResponse)
    (c : Config) (v1 v2 : Bool) (keyword page_id bodyS bodyD : String) :
    (search_wikipedia_full parseS { c with verbose := v1 } keyword bodyS).1
      = (search_wikipedia_full parseS { c with verbose := v2 } keyword bodyS).1 ∧
    (search_wikipedia_full parseS { c with verbose := v1 } keyword bodyS).2.2
      = (search_wikipedia_full parseS { c with verbose := v2 } keyword bodyS).2.2 ∧
    (download_wikipedia_full parseD { c with verbose := v1 } page_id bodyD).1
      = (download_wikipedia_full parseD { c with verbose := v2 } page_id bodyD).1 ∧
    (download_wikipedia_full parseD { c with verbose := v1 } page_id bodyD).2.2
      = (download_wikipedia_full parseD { c with verbose := v2 } page_id bodyD).2.2 := by
  refine ⟨?_, ?_, ?_, ?_⟩
  · cases hp : parseS bodyS <;> simp [search_wikipedia_full, hp]
  · cases hp : parseS bodyS <;> simp [search_wikipedia_full, hp]
  · cases hp : parseD bodyD <;> simp [download_wikipedia_full, hp]
  · cases hp : parseD bodyD <;> simp [download_wikipedia_full, hp]
